import Mathlib

/-!
Verification of the LGMP host engine (`src/lgmp/src/host.c`).

The C source is shallowly embedded: machine integers become `Nat` (with the
32-bit complement written out explicitly where the C code uses `~` on a
`uint32_t`), the shared structures become Lean structures, and the host's
operations become pure state-passing functions.  The headers `lgmp.h` and
`headers.h` are not part of the visible sources; the few facts taken from
them (the packing of the 64-bit subscriber word as two 32-bit masks, the
protocol constants, the client-side subscriber actions) are modelled from
the specification and marked as such in their doc comments.
-/

/-- `LGMP_MAX_MESSAGE_AGE` from host.c: 150 ms. -/
def LGMP_MAX_MESSAGE_AGE : Nat := 150

/-- `LGMP_MAX_QUEUE_TIMEOUT` from host.c: 10000 ms (10 s). -/
def LGMP_MAX_QUEUE_TIMEOUT : Nat := 10000

/-- Modelled from the spec: the fixed compile-time maximum number of queues
(`LGMP_MAX_QUEUES`, defined in a header outside the visible sources).  The
concrete value is irrelevant to every claim; any positive constant works. -/
def LGMP_MAX_QUEUES : Nat := 5

/-- Modelled from the spec: the protocol magic constant written into the
header at initialization (value lives in a header outside the visible
sources; no claim depends on it). -/
def LGMP_PROTOCOL_MAGIC : Nat := 0x504d474c

/-- Modelled from the spec: the protocol version constant (value lives in a
header outside the visible sources; no claim depends on it). -/
def LGMP_PROTOCOL_VERSION : Nat := 1

/-- The result codes of the host engine (`LGMP_STATUS`). -/
inductive LGMP_STATUS where
  | LGMP_OK
  | LGMP_ERR_CLOCK_FAILURE
  | LGMP_ERR_INVALID_SIZE
  | LGMP_ERR_NO_MEM
  | LGMP_ERR_HOST_STARTED
  | LGMP_ERR_NO_QUEUES
  | LGMP_ERR_NO_SHARED_MEM
  | LGMP_ERR_QUEUE_FULL
deriving DecidableEq, Repr

open LGMP_STATUS

/-- 32-bit complement: the value of `~x` when `x` is a C `uint32_t`. -/
def compl32 (x : Nat) : Nat := 4294967295 ^^^ x

/-- `a` is a sub-mask of `b` (every bit set in `a` is set in `b`). -/
def maskSubset (a b : Nat) : Prop := a &&& b = a

instance (a b : Nat) : Decidable (maskSubset a b) := by
  unfold maskSubset; infer_instance

/-- A shared message slot (`struct LGMPHeaderMessage`): producer tag, payload
size and offset, and the pending-acknowledgement mask. -/
structure LGMPHeaderMessage where
  udata       : Nat
  size        : Nat
  offset      : Nat
  pendingSubs : Nat
deriving DecidableEq, Repr, Inhabited

/-- The state of one queue: the shared queue descriptor
(`struct LGMPHeaderQueue`: `numMessages`, the subscriber word, the shared
write cursor `hqPosition`, the slot-array offset) merged with the host-local
`struct LGMPHQueue` (`position`, `count`, `start`, `msgTimeout`, the
per-subscriber `timeout` table) and the queue's slot array `msgs`.

Modelled from the spec: the shared 64-bit subscriber state word packs two
32-bit masks, "subscribed" and "flagged-bad" (the packing macros
`LGMP_SUBS_ON`/`LGMP_SUBS_BAD`/`LGMP_SUBS_OR_BAD`/`LGMP_SUBS_CLEAR` live in
`lgmp.h`, outside the visible sources); the word is represented here
directly as the two masks `subsOn` and `subsBad`.  `LGMP_SUBS_OR_BAD`
sets bits only in the bad half, and `LGMP_SUBS_CLEAR` clears the given
bits from both halves. -/
structure QState where
  numMessages : Nat
  subsOn      : Nat
  subsBad     : Nat
  hqPosition  : Nat
  msgsOffset  : Nat
  position    : Nat
  count       : Nat
  start       : Nat
  msgTimeout  : Nat
  timeout     : Nat → Nat
  msgs        : List LGMPHeaderMessage
deriving Inhabited

/-- The head message slot of a queue (`messages[queue->start]`). -/
def headMsg (q : QState) : LGMPHeaderMessage := q.msgs.getD q.start default

/-- The mask `pend & ~LGMP_SUBS_BAD(subs)` of recipients of the head message
that are still pending and not flagged bad. -/
def lagMask (q : QState) : Nat := (headMsg q).pendingSubs &&& compl32 q.subsBad

/-- The reap mask accumulated by the loop
`for id in [0,n): if (bad & (1 << id)) && now > timeout[id] then reap |= 1 << id`. -/
def reapMask (now bad : Nat) (timeout : Nat → Nat) : Nat → Nat
  | 0 => 0
  | n + 1 =>
      if bad.testBit n && decide (now > timeout n) then
        reapMask now bad timeout n ||| (1 <<< n)
      else
        reapMask now bad timeout n

/-- The timeout table produced by the loop
`for id in [0,n): if (newBadSubs & (1 << id)) then timeout[id] = v`. -/
def setTimeouts (newBadSubs v : Nat) (t : Nat → Nat) : Nat → Nat → Nat
  | 0 => t
  | n + 1 =>
      if newBadSubs.testBit n then
        Function.update (setTimeouts newBadSubs v t n) n v
      else
        setTimeouts newBadSubs v t n

/-- Lines 162–183 of host.c (inside `lgmpHostProcess`): if some recipient of
the head message is pending, not flagged bad, and the head message has
expired, flag exactly those recipients bad, give each a reap deadline
`now + LGMP_MAX_QUEUE_TIMEOUT`, and force-clear the head's pending mask. -/
def flagPhase (now : Nat) (q : QState) : QState :=
  if lagMask q ≠ 0 ∧ now > q.msgTimeout then
    let newBadSubs := lagMask q
    let q1 :=
      if newBadSubs ≠ 0 then
        { q with subsBad := q.subsBad ||| newBadSubs,
                 timeout := setTimeouts newBadSubs (now + LGMP_MAX_QUEUE_TIMEOUT) q.timeout 32 }
      else q
    { q1 with msgs := q1.msgs.set q1.start { headMsg q1 with pendingSubs := 0 } }
  else q

/-- Lines 185–194 of host.c: if the head's pending mask restricted to
non-bad subscribers is zero, the message is finished: advance the read
cursor circularly and apply `if (queue->count--) queue->msgTimeout = now +
LGMP_MAX_MESSAGE_AGE` — note the condition tests the pre-decrement count. -/
def completePhase (now : Nat) (q : QState) : QState :=
  if lagMask q = 0 then
    let start1 := q.start + 1
    { q with start := if start1 = q.numMessages then 0 else start1,
             msgTimeout := if q.count ≠ 0 then now + LGMP_MAX_MESSAGE_AGE else q.msgTimeout,
             count := q.count - 1 }
  else q

/-- Lines 196–206 of host.c: if the subscribed mask is non-empty, clear
every flagged-bad subscriber whose reap deadline has elapsed from both the
bad and the subscribed masks (`LGMP_SUBS_CLEAR`). -/
def reapPhase (now : Nat) (q : QState) : QState :=
  if q.subsOn ≠ 0 then
    let reap := reapMask now q.subsBad q.timeout 32
    { q with subsOn := q.subsOn &&& compl32 reap,
             subsBad := q.subsBad &&& compl32 reap }
  else q

/-- The per-queue body of `lgmpHostProcess` (lines 152–209 of host.c):
skip queues with no outstanding message, otherwise run the flag, complete
and reap steps in order under the queue's spinlock. -/
def processQueue (now : Nat) (q : QState) : QState :=
  if q.count = 0 then q
  else reapPhase now (completePhase now (flagPhase now q))

/-- `lgmpHostPost` (lines 255–289 of host.c).  The recipients are
`LGMP_SUBS_ON(subs) & ~LGMP_SUBS_BAD(subs)`; an empty recipient set is a
no-op returning `LGMP_OK`; a full ring returns `LGMP_ERR_QUEUE_FULL`;
otherwise the message is written, the count incremented (restarting the
head expiry timer when the queue was empty) and both write cursors advance
circularly.  The C function is declared to return `LGMP_STATUS` but its
success path reaches the closing brace without a `return` statement; that
missing result code is modelled as `none`. -/
def lgmpHostPost (now udata : Nat) (payloadOffset payloadSize : Nat) (q : QState) :
    Option LGMP_STATUS × QState :=
  let pend := q.subsOn &&& compl32 q.subsBad
  if pend = 0 then
    (some LGMP_OK, q)
  else if q.count = q.numMessages - 1 then
    (some LGMP_ERR_QUEUE_FULL, q)
  else
    let msg : LGMPHeaderMessage :=
      { udata := udata, size := payloadSize, offset := payloadOffset, pendingSubs := pend }
    let position1 := q.position + 1
    (none,
      { q with msgs := q.msgs.set q.position msg,
               msgTimeout := if q.count = 0 then now + LGMP_MAX_MESSAGE_AGE else q.msgTimeout,
               count := q.count + 1,
               position := if position1 = q.numMessages then 0 else position1,
               hqPosition := if position1 = q.numMessages then 0 else position1 })

/-- The queue state set up by `lgmpHostAddQueue` (lines 118–134 of host.c)
for internal slot capacity `nm` (requested capacity + 1 sentinel) at slot
array offset `off`: cursors and subscriber masks zeroed, head expiry at
`now + LGMP_MAX_MESSAGE_AGE`.  The slot array contents and the timeout
table are not written by the C code; they are only ever read after being
written (slots by `post`, timeouts when a subscriber is flagged bad), so
they are modelled as zeroed. -/
def newQueue (now nm off : Nat) : QState :=
  { numMessages := nm, subsOn := 0, subsBad := 0, hqPosition := 0,
    msgsOffset := off, position := 0, count := 0, start := 0,
    msgTimeout := now + LGMP_MAX_MESSAGE_AGE,
    timeout := fun _ => 0, msgs := List.replicate nm default }

/-- Modelled from the spec: a subscriber identifies itself with an id in
[0, 31] and joins by setting its bit in the queue's "subscribed" mask
(client-side code, outside the visible sources). -/
def subscribeOp (id : Nat) (q : QState) : QState :=
  { q with subsOn := q.subsOn ||| (1 <<< id) }

/-- Modelled from the spec: a subscriber acknowledges a message by
atomically clearing its own bit in that slot's pending-acknowledgement
mask (client-side code, outside the visible sources). -/
def ackOp (id slot : Nat) (q : QState) : QState :=
  let m := q.msgs.getD slot default
  { q with msgs := q.msgs.set slot { m with pendingSubs := m.pendingSubs &&& compl32 (1 <<< id) } }

/-- The operations that can touch a queue's state: the two subscriber-side
actions, a post, and one maintenance tick. -/
inductive QOp where
  | subscribe (id : Nat)
  | ack (id slot : Nat)
  | postMsg (now udata payloadOffset payloadSize : Nat)
  | tick (now : Nat)

/-- One step of the queue state machine. -/
def stepQ (op : QOp) (q : QState) : QState :=
  match op with
  | .subscribe id => subscribeOp id q
  | .ack id slot => ackOp id slot q
  | .postMsg now u o s => (lgmpHostPost now u o s q).2
  | .tick now => processQueue now q

/-- Run a sequence of queue operations. -/
def runQ (q : QState) (ops : List QOp) : QState :=
  ops.foldl (fun s op => stepQ op s) q

/-! ### Bit-level helper lemmas -/

theorem maskSubset_iff (a b : Nat) :
    maskSubset a b ↔ ∀ i, a.testBit i = true → b.testBit i = true := by
  unfold maskSubset
  constructor
  · intro h i hi
    have h2 := congrArg (fun x => x.testBit i) h
    simp only [Nat.testBit_land, hi, Bool.true_and] at h2
    exact h2
  · intro h
    apply Nat.eq_of_testBit_eq
    intro i
    rw [Nat.testBit_land]
    cases hai : a.testBit i
    · simp
    · simp [h i hai]

theorem testBit_compl32 (x i : Nat) :
    (compl32 x).testBit i = (decide (i < 32) ^^ x.testBit i) := by
  unfold compl32
  have h32 : (4294967295 : Nat) = 2 ^ 32 - 1 := by norm_num
  rw [h32, Nat.testBit_xor, Nat.testBit_two_pow_sub_one]

theorem testBit_compl32_lt {i : Nat} (x : Nat) (h : i < 32) :
    (compl32 x).testBit i = !x.testBit i := by
  simp [testBit_compl32, h]

theorem testBit_compl32_ge {i : Nat} (x : Nat) (h : 32 ≤ i) :
    (compl32 x).testBit i = x.testBit i := by
  simp [testBit_compl32, Nat.not_lt.2 h]

theorem reapMask_testBit (now bad : Nat) (t : Nat → Nat) (n i : Nat) :
    (reapMask now bad t n).testBit i =
      (decide (i < n) && (bad.testBit i && decide (now > t i))) := by
  induction n with
  | zero => simp [reapMask]
  | succ n ih =>
    unfold reapMask
    by_cases hin : i = n
    · subst hin
      split
      · rename_i h
        rw [Nat.testBit_lor, ih, Nat.one_shiftLeft, Nat.testBit_two_pow_self]
        simp [h]
      · rename_i h
        rw [ih]
        simp only [Bool.not_eq_true] at h
        simp [h, Nat.lt_irrefl]
    · have hd : (i < n + 1) ↔ (i < n) := by omega
      split
      · rw [Nat.testBit_lor, ih, Nat.one_shiftLeft, Nat.testBit_two_pow_of_ne (Ne.symm hin)]
        simp [hd]
      · rw [ih]
        simp [hd]

theorem setTimeouts_apply (nb v : Nat) (t : Nat → Nat) (n j : Nat) :
    setTimeouts nb v t n j = if j < n ∧ nb.testBit j then v else t j := by
  induction n with
  | zero => simp [setTimeouts]
  | succ n ih =>
    unfold setTimeouts
    by_cases hjn : j = n
    · subst hjn
      split
      · rename_i h
        simp [Function.update_apply, h]
      · rename_i h
        simp only [Bool.not_eq_true] at h
        rw [ih]
        simp [h]
    · have hd : (j < n + 1) ↔ (j < n) := by omega
      split
      · rw [Function.update_apply, if_neg hjn, ih]
        simp [hd]
      · rw [ih]
        simp [hd]

theorem getD_set_self {α : Type} (l : List α) (i : Nat) (a d : α) :
    (l.set i a).getD i d = if i < l.length then a else d := by
  induction l generalizing i with
  | nil => simp
  | cons x xs ih =>
    cases i with
    | zero => simp
    | succ n => simpa using ih n

theorem getD_set_ne {α : Type} (l : List α) (i j : Nat) (a d : α) (h : i ≠ j) :
    (l.set i a).getD j d = l.getD j d := by
  induction l generalizing i j with
  | nil => simp
  | cons x xs ih =>
    cases i with
    | zero =>
      cases j with
      | zero => exact absurd rfl h
      | succ m => simp
    | succ n =>
      cases j with
      | zero => simp
      | succ m => simpa using ih n m (by omega)

/-! ### Phase equations for the maintenance tick -/

theorem flagPhase_pos (now : Nat) (q : QState) (h : lagMask q ≠ 0 ∧ now > q.msgTimeout) :
    flagPhase now q =
      { q with subsBad := q.subsBad ||| lagMask q,
               timeout := setTimeouts (lagMask q) (now + LGMP_MAX_QUEUE_TIMEOUT) q.timeout 32,
               msgs := q.msgs.set q.start { headMsg q with pendingSubs := 0 } } := by
  unfold flagPhase
  dsimp only
  rw [if_pos h, if_pos h.1]
  rfl

theorem flagPhase_neg (now : Nat) (q : QState) (h : ¬ (lagMask q ≠ 0 ∧ now > q.msgTimeout)) :
    flagPhase now q = q := by
  unfold flagPhase
  dsimp only
  rw [if_neg h]

theorem completePhase_pos (now : Nat) (q : QState) (h : lagMask q = 0) :
    completePhase now q =
      { q with start := if q.start + 1 = q.numMessages then 0 else q.start + 1,
               msgTimeout := if q.count ≠ 0 then now + LGMP_MAX_MESSAGE_AGE else q.msgTimeout,
               count := q.count - 1 } := by
  unfold completePhase
  dsimp only
  rw [if_pos h]

theorem completePhase_neg (now : Nat) (q : QState) (h : ¬ lagMask q = 0) :
    completePhase now q = q := by
  unfold completePhase
  dsimp only
  rw [if_neg h]

theorem reapPhase_pos (now : Nat) (q : QState) (h : q.subsOn ≠ 0) :
    reapPhase now q =
      { q with subsOn := q.subsOn &&& compl32 (reapMask now q.subsBad q.timeout 32),
               subsBad := q.subsBad &&& compl32 (reapMask now q.subsBad q.timeout 32) } := by
  unfold reapPhase
  dsimp only
  rw [if_pos h]

theorem reapPhase_neg (now : Nat) (q : QState) (h : ¬ q.subsOn ≠ 0) :
    reapPhase now q = q := by
  unfold reapPhase
  dsimp only
  rw [if_neg h]

theorem processQueue_pos (now : Nat) (q : QState) (h : q.count ≠ 0) :
    processQueue now q = reapPhase now (completePhase now (flagPhase now q)) := by
  unfold processQueue
  rw [if_neg h]

/-! ### Claims about `lgmpHostPost` -/

/-- C5: posting to a queue whose recipient set (subscribed AND NOT
flagged-bad) is empty returns `LGMP_OK` and leaves the whole queue state —
outstanding count, host-local and shared write cursors, head expiry
deadline, and every message slot — unchanged. -/
theorem post_no_recipients_noop (now udata off sz : Nat) (q : QState)
    (hpend : q.subsOn &&& compl32 q.subsBad = 0) :
    lgmpHostPost now udata off sz q = (some LGMP_OK, q) := by
  unfold lgmpHostPost
  dsimp only
  rw [if_pos hpend]

/-- Witness for C5 at a concrete queue with an empty recipient set. -/
def c5queue : QState :=
  { numMessages := 3, subsOn := 2, subsBad := 2, hqPosition := 0, msgsOffset := 0,
    position := 0, count := 0, start := 0, msgTimeout := 0,
    timeout := fun _ => 0, msgs := [default, default, default] }

theorem post_no_recipients_noop_witness :
    lgmpHostPost 50 7 11 13 c5queue = (some LGMP_OK, c5queue) :=
  post_no_recipients_noop 50 7 11 13 c5queue (by decide)

/-- C4: posting to a queue with a non-empty recipient set whose outstanding
count equals the internal slot capacity minus one (the sentinel-adjusted
limit) returns `LGMP_ERR_QUEUE_FULL` and leaves the whole queue state
unchanged. -/
theorem post_full_backpressure (now udata off sz : Nat) (q : QState)
    (hpend : q.subsOn &&& compl32 q.subsBad ≠ 0)
    (hfull : q.count = q.numMessages - 1) :
    lgmpHostPost now udata off sz q = (some LGMP_ERR_QUEUE_FULL, q) := by
  unfold lgmpHostPost
  dsimp only
  rw [if_neg hpend, if_pos hfull]

/-- Witness for C4 at a concrete full queue (internal capacity 3,
outstanding count 2, one live subscriber). -/
def c4queue : QState :=
  { numMessages := 3, subsOn := 1, subsBad := 0, hqPosition := 2, msgsOffset := 0,
    position := 2, count := 2, start := 0, msgTimeout := 120,
    timeout := fun _ => 0, msgs := [default, default, default] }

theorem post_full_backpressure_witness :
    lgmpHostPost 50 7 11 13 c4queue = (some LGMP_ERR_QUEUE_FULL, c4queue) :=
  post_full_backpressure 50 7 11 13 c4queue (by decide) (by decide)

/-- The concrete input exhibiting C1's divergence: one live subscriber
(id 0), internal capacity 3, empty ring. -/
def c1queue : QState :=
  { numMessages := 3, subsOn := 1, subsBad := 0, hqPosition := 0, msgsOffset := 0,
    position := 0, count := 0, start := 0, msgTimeout := 0,
    timeout := fun _ => 0, msgs := [default, default, default] }

/-- C1 (code bug): on the success path — live subscribers present and the
ring not full — `lgmpHostPost` does write the message (slot 0 receives the
tag, payload offset/size and the recipient pending mask, the count becomes
1, the write cursor advances, the head expiry timer restarts), but the C
function reaches its closing brace without a `return` statement, so no
result code (in particular not `LGMP_OK`) is reported: the returned status
is `none` in the model. -/
theorem post_success_returns_no_status :
    (lgmpHostPost 100 7 11 13 c1queue).1 = none ∧
    ((lgmpHostPost 100 7 11 13 c1queue).2).msgs.getD 0 default =
      { udata := 7, size := 13, offset := 11, pendingSubs := 1 } ∧
    ((lgmpHostPost 100 7 11 13 c1queue).2).count = 1 ∧
    ((lgmpHostPost 100 7 11 13 c1queue).2).position = 1 ∧
    ((lgmpHostPost 100 7 11 13 c1queue).2).msgTimeout = 100 + LGMP_MAX_MESSAGE_AGE := by
  refine ⟨rfl, by decide, rfl, rfl, rfl⟩

/-! ### Claims about the maintenance tick: completion (C2) -/

/-- A queue with exactly one outstanding, fully acknowledged head message:
one live subscriber, head slot's pending mask already zero. -/
def c2queue : QState :=
  { numMessages := 3, subsOn := 1, subsBad := 0, hqPosition := 1, msgsOffset := 0,
    position := 1, count := 1, start := 0, msgTimeout := 100,
    timeout := fun _ => 0, msgs := [⟨5, 0, 0, 0⟩, default, default] }

/-- Counterexample to C2 as stated: ticking `c2queue` at `now = 500`
completes the head message and leaves zero outstanding messages, yet the
head expiry deadline IS reset to `now + 150 = 650` (it was 100), because
`if (queue->count--)` tests the pre-decrement count, which is never zero
when a message completes.  The claim's "if and only if more messages
remain outstanding after the decrement" is therefore false in the
"only if" direction. -/
theorem tick_complete_resets_timeout_with_none_left :
    (processQueue 500 c2queue).count = 0 ∧
    (processQueue 500 c2queue).msgTimeout = 500 + LGMP_MAX_MESSAGE_AGE ∧
    c2queue.msgTimeout = 100 := by
  refine ⟨rfl, rfl, rfl⟩

/-- C2 amended: on a tick of a queue with at least one outstanding message
whose head pending mask, restricted to non-bad subscribers and possibly
after force-clearing, is zero, the read cursor advances circularly, the
outstanding count is decremented by one, and the head expiry deadline is
reset to `now + 150 ms` unconditionally — not only when messages remain —
because the reset's guard tests the pre-decrement count. -/
theorem tick_complete_advances (now : Nat) (q : QState)
    (hcount : q.count ≠ 0)
    (hdone : lagMask (flagPhase now q) = 0) :
    (processQueue now q).start = (if q.start + 1 = q.numMessages then 0 else q.start + 1) ∧
    (processQueue now q).count = q.count - 1 ∧
    (processQueue now q).msgTimeout = now + LGMP_MAX_MESSAGE_AGE := by
  rw [processQueue_pos now q hcount]
  have hq1start : (flagPhase now q).start = q.start := by
    by_cases h : lagMask q ≠ 0 ∧ now > q.msgTimeout
    · rw [flagPhase_pos now q h]
    · rw [flagPhase_neg now q h]
  have hq1count : (flagPhase now q).count = q.count := by
    by_cases h : lagMask q ≠ 0 ∧ now > q.msgTimeout
    · rw [flagPhase_pos now q h]
    · rw [flagPhase_neg now q h]
  have hq1num : (flagPhase now q).numMessages = q.numMessages := by
    by_cases h : lagMask q ≠ 0 ∧ now > q.msgTimeout
    · rw [flagPhase_pos now q h]
    · rw [flagPhase_neg now q h]
  rw [completePhase_pos now (flagPhase now q) hdone]
  have hcount1 : (flagPhase now q).count ≠ 0 := by rw [hq1count]; exact hcount
  by_cases hon : (({ flagPhase now q with
      start := if (flagPhase now q).start + 1 = (flagPhase now q).numMessages then 0
               else (flagPhase now q).start + 1,
      msgTimeout := if (flagPhase now q).count ≠ 0 then now + LGMP_MAX_MESSAGE_AGE
                    else (flagPhase now q).msgTimeout,
      count := (flagPhase now q).count - 1 } : QState)).subsOn ≠ 0
  · rw [reapPhase_pos now _ hon]
    refine ⟨?_, ?_, ?_⟩
    · dsimp only
      rw [hq1start, hq1num]
    · dsimp only
      rw [hq1count]
    · dsimp only
      rw [if_pos hcount1]
  · rw [reapPhase_neg now _ hon]
    refine ⟨?_, ?_, ?_⟩
    · dsimp only
      rw [hq1start, hq1num]
    · dsimp only
      rw [hq1count]
    · dsimp only
      rw [if_pos hcount1]

/-- Witness for the amended C2 at `c2queue`: one outstanding message, head
already acknowledged, tick at 500. -/
theorem tick_complete_advances_witness :
    (processQueue 500 c2queue).start = (if 0 + 1 = 3 then 0 else 0 + 1) ∧
    (processQueue 500 c2queue).count = 1 - 1 ∧
    (processQueue 500 c2queue).msgTimeout = 500 + LGMP_MAX_MESSAGE_AGE := by
  have h := tick_complete_advances 500 c2queue (by decide) (by decide)
  exact h

/-! ### Claims about the maintenance tick: flagging laggards (C3) -/

theorem pending_after_set_zero (l : List LGMPHeaderMessage) (i : Nat)
    (m : LGMPHeaderMessage) (hm : m.pendingSubs = 0) :
    ((l.set i m).getD i default).pendingSubs = 0 := by
  rw [getD_set_self]
  split
  · exact hm
  · rfl

theorem lagMask_after_flag (now : Nat) (q : QState)
    (h : lagMask q ≠ 0 ∧ now > q.msgTimeout) :
    lagMask (flagPhase now q) = 0 := by
  have h1 : (headMsg (flagPhase now q)).pendingSubs = 0 := by
    rw [flagPhase_pos now q h]
    unfold headMsg
    dsimp only
    exact pending_after_set_zero q.msgs q.start _ rfl
  unfold lagMask
  rw [h1]
  exact Nat.zero_and _

/-- C3: on a tick of a queue with an outstanding head message, some
recipient of which is pending, not already flagged bad, and past the head's
expiry deadline, exactly those lagging recipients become newly flagged bad,
each of them gets the per-subscriber reap deadline `now + 10 s`, and the
head slot's pending-acknowledgement mask is set to zero. -/
theorem tick_flags_laggards (now : Nat) (q : QState)
    (hcount : q.count ≠ 0)
    (hlag : lagMask q ≠ 0)
    (hexp : now > q.msgTimeout) :
    ((processQueue now q).msgs.getD q.start default).pendingSubs = 0 ∧
    ∀ id, id < 32 →
      (((processQueue now q).subsBad.testBit id = true ∧ q.subsBad.testBit id = false) ↔
        (lagMask q).testBit id = true) ∧
      ((lagMask q).testBit id = true →
        (processQueue now q).timeout id = now + LGMP_MAX_QUEUE_TIMEOUT) := by
  have h12 : completePhase now (flagPhase now q) =
      { q with subsBad := q.subsBad ||| lagMask q,
               timeout := setTimeouts (lagMask q) (now + LGMP_MAX_QUEUE_TIMEOUT) q.timeout 32,
               msgs := q.msgs.set q.start { headMsg q with pendingSubs := 0 },
               start := if q.start + 1 = q.numMessages then 0 else q.start + 1,
               msgTimeout := if q.count ≠ 0 then now + LGMP_MAX_MESSAGE_AGE else q.msgTimeout,
               count := q.count - 1 } := by
    rw [completePhase_pos now _ (lagMask_after_flag now q ⟨hlag, hexp⟩),
        flagPhase_pos now q ⟨hlag, hexp⟩]
  have hbad_of_lag : ∀ id, id < 32 → (lagMask q).testBit id = true →
      q.subsBad.testBit id = false := by
    intro id hid hL
    unfold lagMask at hL
    rw [Nat.testBit_land, Bool.and_eq_true] at hL
    have h2 := hL.2
    rw [testBit_compl32_lt _ hid, Bool.not_eq_true'] at h2
    exact h2
  have hT1 : ∀ id, id < 32 → (lagMask q).testBit id = true →
      setTimeouts (lagMask q) (now + LGMP_MAX_QUEUE_TIMEOUT) q.timeout 32 id
        = now + LGMP_MAX_QUEUE_TIMEOUT := by
    intro id hid hL
    rw [setTimeouts_apply, if_pos ⟨hid, hL⟩]
  rw [processQueue_pos now q hcount, h12]
  set q2 : QState :=
      { q with subsBad := q.subsBad ||| lagMask q,
               timeout := setTimeouts (lagMask q) (now + LGMP_MAX_QUEUE_TIMEOUT) q.timeout 32,
               msgs := q.msgs.set q.start { headMsg q with pendingSubs := 0 },
               start := if q.start + 1 = q.numMessages then 0 else q.start + 1,
               msgTimeout := if q.count ≠ 0 then now + LGMP_MAX_MESSAGE_AGE else q.msgTimeout,
               count := q.count - 1 } with hq2
  have h2bad : q2.subsBad = q.subsBad ||| lagMask q := by rw [hq2]
  have h2t : q2.timeout = setTimeouts (lagMask q) (now + LGMP_MAX_QUEUE_TIMEOUT) q.timeout 32 := by
    rw [hq2]
  have h2m : (q2.msgs.getD q.start default).pendingSubs = 0 := by
    rw [hq2]
    exact pending_after_set_zero q.msgs q.start _ rfl
  by_cases hon : q2.subsOn ≠ 0
  · rw [reapPhase_pos now q2 hon]
    dsimp only
    refine ⟨h2m, ?_⟩
    intro id hid
    have hRid : (lagMask q).testBit id = true →
        (reapMask now (q.subsBad ||| lagMask q)
          (setTimeouts (lagMask q) (now + LGMP_MAX_QUEUE_TIMEOUT) q.timeout 32) 32).testBit id
          = false := by
      intro hL
      rw [reapMask_testBit, hT1 id hid hL]
      have hngt : ¬ (now > now + LGMP_MAX_QUEUE_TIMEOUT) := by omega
      simp [hngt]
    constructor
    · constructor
      · rintro ⟨h1, h2⟩
        rw [Nat.testBit_land, Bool.and_eq_true, Nat.testBit_lor, Bool.or_eq_true] at h1
        rcases h1.1 with hb | hl
        · rw [h2] at hb; exact absurd hb (by simp)
        · exact hl
      · intro hL
        refine ⟨?_, hbad_of_lag id hid hL⟩
        rw [Nat.testBit_land, Bool.and_eq_true, Nat.testBit_lor, Bool.or_eq_true]
        refine ⟨Or.inr hL, ?_⟩
        rw [testBit_compl32_lt _ hid, hRid hL]
        rfl
    · intro hL
      exact hT1 id hid hL
  · rw [reapPhase_neg now q2 hon]
    refine ⟨h2m, ?_⟩
    intro id hid
    rw [h2bad, h2t]
    constructor
    · constructor
      · rintro ⟨h1, h2⟩
        rw [Nat.testBit_lor, Bool.or_eq_true] at h1
        rcases h1 with hb | hl
        · rw [h2] at hb; exact absurd hb (by simp)
        · exact hl
      · intro hL
        refine ⟨?_, hbad_of_lag id hid hL⟩
        rw [Nat.testBit_lor, Bool.or_eq_true]
        exact Or.inr hL
    · intro hL
      exact hT1 id hid hL

/-- Witness for C3: two subscribers (mask 0b11), subscriber 1 has
acknowledged the head message, subscriber 0 is lagging, the head has
expired. -/
def c3queue : QState :=
  { numMessages := 3, subsOn := 3, subsBad := 0, hqPosition := 1, msgsOffset := 0,
    position := 1, count := 1, start := 0, msgTimeout := 151,
    timeout := fun _ => 0, msgs := [⟨5, 0, 0, 1⟩, default, default] }

theorem tick_flags_laggards_witness :
    ((processQueue 200 c3queue).msgs.getD c3queue.start default).pendingSubs = 0 ∧
    ∀ id, id < 32 →
      (((processQueue 200 c3queue).subsBad.testBit id = true ∧
          c3queue.subsBad.testBit id = false) ↔
        (lagMask c3queue).testBit id = true) ∧
      ((lagMask c3queue).testBit id = true →
        (processQueue 200 c3queue).timeout id = 200 + LGMP_MAX_QUEUE_TIMEOUT) :=
  tick_flags_laggards 200 c3queue (by decide) (by decide) (by decide)

/-! ### Claims about the maintenance tick: reaping (C8) -/

theorem lagMask_testBit_bad {q : QState} {id : Nat} (hid : id < 32)
    (hL : (lagMask q).testBit id = true) : q.subsBad.testBit id = false := by
  unfold lagMask at hL
  rw [Nat.testBit_land, Bool.and_eq_true] at hL
  have h2 := hL.2
  rw [testBit_compl32_lt _ hid, Bool.not_eq_true'] at h2
  exact h2

theorem flagPhase_subsOn (now : Nat) (q : QState) :
    (flagPhase now q).subsOn = q.subsOn := by
  by_cases h : lagMask q ≠ 0 ∧ now > q.msgTimeout
  · rw [flagPhase_pos now q h]
  · rw [flagPhase_neg now q h]

theorem completePhase_subsOn (now : Nat) (q : QState) :
    (completePhase now q).subsOn = q.subsOn := by
  by_cases h : lagMask q = 0
  · rw [completePhase_pos now q h]
  · rw [completePhase_neg now q h]

theorem completePhase_subsBad (now : Nat) (q : QState) :
    (completePhase now q).subsBad = q.subsBad := by
  by_cases h : lagMask q = 0
  · rw [completePhase_pos now q h]
  · rw [completePhase_neg now q h]

theorem completePhase_timeout (now : Nat) (q : QState) :
    (completePhase now q).timeout = q.timeout := by
  by_cases h : lagMask q = 0
  · rw [completePhase_pos now q h]
  · rw [completePhase_neg now q h]

/-- C8: on a tick of a queue with at least one outstanding message, under
the documented invariant flagged-bad ⊆ subscribed, every subscriber that is
currently flagged bad and whose per-subscriber reap deadline has elapsed
(`now` strictly greater) is cleared from both the bad and the subscribed
masks; a bad subscriber whose deadline has not elapsed keeps both bits. -/
theorem tick_reaps_expired_bad (now : Nat) (q : QState) (id : Nat)
    (hcount : q.count ≠ 0)
    (hsub : maskSubset q.subsBad q.subsOn)
    (hid : id < 32)
    (hbad : q.subsBad.testBit id = true) :
    (now > q.timeout id →
      ((processQueue now q).subsBad.testBit id = false ∧
       (processQueue now q).subsOn.testBit id = false)) ∧
    (¬ now > q.timeout id →
      ((processQueue now q).subsBad.testBit id = true ∧
       (processQueue now q).subsOn.testBit id = true)) := by
  have hOn_id : q.subsOn.testBit id = true := (maskSubset_iff _ _).1 hsub id hbad
  have hon : q.subsOn ≠ 0 := by
    intro h0
    rw [h0, Nat.zero_testBit] at hOn_id
    exact Bool.false_ne_true hOn_id
  -- facts about the state after the flag phase
  have hb1 : (flagPhase now q).subsBad.testBit id = true := by
    by_cases hf : lagMask q ≠ 0 ∧ now > q.msgTimeout
    · rw [flagPhase_pos now q hf]
      dsimp only
      rw [Nat.testBit_lor, hbad]
      rfl
    · rw [flagPhase_neg now q hf]
      exact hbad
  have ht1 : (flagPhase now q).timeout id = q.timeout id := by
    by_cases hf : lagMask q ≠ 0 ∧ now > q.msgTimeout
    · rw [flagPhase_pos now q hf]
      dsimp only
      have hnL : ¬ (id < 32 ∧ (lagMask q).testBit id = true) := by
        rintro ⟨h1, h2⟩
        rw [lagMask_testBit_bad h1 h2] at hbad
        exact Bool.false_ne_true hbad
      rw [setTimeouts_apply, if_neg hnL]
    · rw [flagPhase_neg now q hf]
  -- facts about the state after the complete phase
  have hbad2 : (completePhase now (flagPhase now q)).subsBad.testBit id = true := by
    rw [completePhase_subsBad]
    exact hb1
  have ht2 : (completePhase now (flagPhase now q)).timeout id = q.timeout id := by
    rw [completePhase_timeout]
    exact ht1
  have hOn2 : (completePhase now (flagPhase now q)).subsOn.testBit id = true := by
    rw [completePhase_subsOn, flagPhase_subsOn]
    exact hOn_id
  have hon2 : (completePhase now (flagPhase now q)).subsOn ≠ 0 := by
    rw [completePhase_subsOn, flagPhase_subsOn]
    exact hon
  have hRid : (reapMask now (completePhase now (flagPhase now q)).subsBad
      (completePhase now (flagPhase now q)).timeout 32).testBit id
        = decide (now > q.timeout id) := by
    rw [reapMask_testBit, hbad2, ht2, decide_eq_true hid]
    simp
  rw [processQueue_pos now q hcount, reapPhase_pos now _ hon2]
  dsimp only
  constructor
  · intro hgt
    constructor
    · rw [Nat.testBit_land, testBit_compl32_lt _ hid, hRid, decide_eq_true hgt]
      simp
    · rw [Nat.testBit_land, testBit_compl32_lt _ hid, hRid, decide_eq_true hgt]
      simp
  · intro hle
    constructor
    · rw [Nat.testBit_land, testBit_compl32_lt _ hid, hRid, hbad2]
      simp [hle]
    · rw [Nat.testBit_land, testBit_compl32_lt _ hid, hRid, hOn2]
      simp [hle]

/-- Witness for C8: subscribers 0 and 1 are subscribed, subscriber 0 is
flagged bad with reap deadline 100, one outstanding (acknowledged) message,
tick at `now = 200`. -/
def c8queue : QState :=
  { numMessages := 3, subsOn := 3, subsBad := 1, hqPosition := 1, msgsOffset := 0,
    position := 1, count := 1, start := 0, msgTimeout := 500,
    timeout := fun _ => 100, msgs := [⟨5, 0, 0, 0⟩, default, default] }

theorem tick_reaps_expired_bad_witness :
    (200 > c8queue.timeout 0 →
      ((processQueue 200 c8queue).subsBad.testBit 0 = false ∧
       (processQueue 200 c8queue).subsOn.testBit 0 = false)) ∧
    (¬ 200 > c8queue.timeout 0 →
      ((processQueue 200 c8queue).subsBad.testBit 0 = true ∧
       (processQueue 200 c8queue).subsOn.testBit 0 = true)) :=
  tick_reaps_expired_bad 200 c8queue 0 (by decide) (by decide) (by decide) (by decide)

/-! ### The flagged-bad ⊆ subscribed invariant (C9) -/

theorem maskSubset_land (a b c : Nat) (h : maskSubset a b) :
    maskSubset (a &&& c) (b &&& c) := by
  rw [maskSubset_iff] at h ⊢
  intro i hi
  rw [Nat.testBit_land, Bool.and_eq_true] at hi ⊢
  exact ⟨h i hi.1, hi.2⟩

theorem processQueue_zero (now : Nat) (q : QState) (h : q.count = 0) :
    processQueue now q = q := by
  unfold processQueue
  rw [if_pos h]

theorem lgmpHostPost_subsOn (now u o s : Nat) (q : QState) :
    ((lgmpHostPost now u o s q).2).subsOn = q.subsOn := by
  unfold lgmpHostPost
  dsimp only
  split
  · rfl
  · split <;> rfl

theorem lgmpHostPost_subsBad (now u o s : Nat) (q : QState) :
    ((lgmpHostPost now u o s q).2).subsBad = q.subsBad := by
  unfold lgmpHostPost
  dsimp only
  split
  · rfl
  · split <;> rfl

/-- The operation trace refuting C9: internal capacity 4 (requested 3),
subscribers 0 and 1 join at time 1, three messages are posted, subscriber 1
acknowledges the first.  Tick at 200: subscriber 0 is flagged bad (reap
deadline 10200), message 1 completes.  Tick at 10300: subscriber 1 is
flagged bad for message 2, and subscriber 0 — still carrying a pending bit
in outstanding message 3 — is reaped from both masks.  Tick at 10600:
message 3's pending bit for the now-unsubscribed id 0 re-flags it bad, so
the stored word has flagged-bad = 0b11 but subscribed = 0b10. -/
def c9trace : List QOp :=
  [.subscribe 0, .subscribe 1,
   .postMsg 1 0 0 0, .postMsg 1 0 0 0, .postMsg 1 0 0 0,
   .ack 1 0,
   .tick 200, .tick 10300, .tick 10600]

/-- Counterexample to C9: the state reached from a fresh queue by `c9trace`
— queue creation, subscribes, posts, acknowledgements and maintenance
ticks only — has a flagged-bad mask that is NOT a subset of the subscribed
mask. -/
theorem subs_invariant_violated :
    ¬ maskSubset (runQ (newQueue 1 4 0) c9trace).subsBad
        (runQ (newQueue 1 4 0) c9trace).subsOn := by
  decide

/-- C9 amended: queue creation establishes flagged-bad ⊆ subscribed, and the
inclusion is preserved by subscribes, acknowledgements and posts
unconditionally, and by a maintenance tick PROVIDED every pending bit of the
head message belongs to a currently subscribed-or-bad subscriber.  (A tick
can violate the inclusion when a reaped subscriber still owns a pending bit
in an outstanding slot, as `c9trace` shows.) -/
theorem subs_invariant_preservation :
    (∀ now nm off, maskSubset (newQueue now nm off).subsBad (newQueue now nm off).subsOn) ∧
    (∀ q : QState, maskSubset q.subsBad q.subsOn → q.subsBad < 4294967296 →
      (∀ id, maskSubset (subscribeOp id q).subsBad (subscribeOp id q).subsOn) ∧
      (∀ id slot, maskSubset (ackOp id slot q).subsBad (ackOp id slot q).subsOn) ∧
      (∀ now u o s, maskSubset ((lgmpHostPost now u o s q).2).subsBad
          ((lgmpHostPost now u o s q).2).subsOn) ∧
      (∀ now, maskSubset (headMsg q).pendingSubs (q.subsOn ||| q.subsBad) →
        maskSubset (processQueue now q).subsBad (processQueue now q).subsOn)) := by
  constructor
  · intro now nm off
    exact Nat.zero_and _
  · intro q hsub hb32
    refine ⟨?_, ?_, ?_, ?_⟩
    · intro id
      show maskSubset q.subsBad (q.subsOn ||| (1 <<< id))
      rw [maskSubset_iff] at hsub ⊢
      intro i hi
      rw [Nat.testBit_lor, hsub i hi]
      rfl
    · intro id slot
      exact hsub
    · intro now u o s
      rw [lgmpHostPost_subsOn, lgmpHostPost_subsBad]
      exact hsub
    · intro now hpend
      by_cases hc : q.count = 0
      · rw [processQueue_zero now q hc]
        exact hsub
      · have hsub1 : maskSubset (completePhase now (flagPhase now q)).subsBad
            (completePhase now (flagPhase now q)).subsOn := by
          rw [completePhase_subsBad, completePhase_subsOn, flagPhase_subsOn]
          by_cases hf : lagMask q ≠ 0 ∧ now > q.msgTimeout
          · rw [flagPhase_pos now q hf]
            dsimp only
            rw [maskSubset_iff]
            intro i hi
            rw [Nat.testBit_lor, Bool.or_eq_true] at hi
            rcases hi with hb | hl
            · exact (maskSubset_iff _ _).1 hsub i hb
            · unfold lagMask at hl
              rw [Nat.testBit_land, Bool.and_eq_true] at hl
              by_cases hi32 : i < 32
              · have hnbad : q.subsBad.testBit i = false := by
                  have h2 := hl.2
                  rw [testBit_compl32_lt _ hi32, Bool.not_eq_true'] at h2
                  exact h2
                have hdst := (maskSubset_iff _ _).1 hpend i hl.1
                rw [Nat.testBit_lor, Bool.or_eq_true] at hdst
                rcases hdst with h | h
                · exact h
                · rw [hnbad] at h
                  exact absurd h (by simp)
              · have hge : 32 ≤ i := Nat.le_of_not_lt hi32
                have hbit : q.subsBad.testBit i = false := by
                  apply Nat.testBit_lt_two_pow
                  calc q.subsBad < 4294967296 := hb32
                    _ = 2 ^ 32 := by norm_num
                    _ ≤ 2 ^ i := Nat.pow_le_pow_right (by norm_num) hge
                have h2 := hl.2
                rw [testBit_compl32_ge _ hge, hbit] at h2
                exact absurd h2 (by simp)
          · rw [flagPhase_neg now q hf]
            exact hsub
        rw [processQueue_pos now q hc]
        by_cases hon : (completePhase now (flagPhase now q)).subsOn ≠ 0
        · rw [reapPhase_pos now _ hon]
          dsimp only
          exact maskSubset_land _ _ _ hsub1
        · rw [reapPhase_neg now _ hon]
          exact hsub1

/-- Witness queue for the amended C9: two subscribers, none bad, one
outstanding message pending for subscriber 0. -/
def c9queue : QState :=
  { numMessages := 3, subsOn := 3, subsBad := 0, hqPosition := 1, msgsOffset := 0,
    position := 1, count := 1, start := 0, msgTimeout := 151,
    timeout := fun _ => 0, msgs := [⟨5, 0, 0, 1⟩, default, default] }

theorem subs_invariant_preservation_witness :
    maskSubset (processQueue 200 c9queue).subsBad (processQueue 200 c9queue).subsOn :=
  ((subs_invariant_preservation.2 c9queue (by decide) (by decide)).2.2.2) 200 (by decide)

/-! ### The host state and its operations -/

/-- The host-local `struct LGMPHost` merged with the shared
`struct LGMPHeader` it manages: region accounting (`size`, `avail`,
`nextFree`), the `started` flag, the header fields written at
initialization, and the queue directory (`numQueues` is the length of
`queues`).  `hq->queueID` is written by `lgmpHostAddQueue` but never read
inside host.c, so it is not modelled. -/
structure HostState where
  size      : Nat
  avail     : Nat
  nextFree  : Nat
  started   : Bool
  magic     : Nat
  version   : Nat
  caps      : Nat
  sessionID : Nat
  heartbeat : Nat
  queues    : List QState
deriving Inhabited

/-- The result of `lgmpHostInit`: an error status, a host state, or
divergence of the session-id loop (see `lgmpHostInit`). -/
inductive InitResult where
  | err (s : LGMP_STATUS)
  | ok (h : HostState)
  | diverge

/-- The loop `while (sessionID == header->sessionID) header->sessionID =
rand();` of `lgmpHostInit` (lines 76–78 of host.c), applied to the
previously stored value `prior` and the stream of `rand()` results: the
first value of the stream different from `prior`; `none` when the given
stream is exhausted (the C loop would keep drawing). -/
def pickSessionID (prior : Nat) : List Nat → Option Nat
  | [] => none
  | r :: rs => if r = prior then pickSessionID prior rs else some r

/-- `lgmpHostInit` (lines 46–87 of host.c).  `headerSize` stands for
`sizeof(struct LGMPHeader)` (the headers are outside the visible sources),
`now` for the value of `lgmpGetClockMS()` (`now = 0` models the failing
clock, since the C test is `!lgmpGetClockMS()`), `mallocOk` for whether
`malloc` succeeds, `prior` for the `sessionID` value stored in the region
immediately before the call, and `rands` for the stream of `rand()`
results; `diverge` models the session-id loop never finding a fresh
value. -/
def lgmpHostInit (headerSize now prior size : Nat) (mallocOk : Bool) (rands : List Nat) :
    InitResult :=
  if now = 0 then .err LGMP_ERR_CLOCK_FAILURE
  else if size < headerSize then .err LGMP_ERR_INVALID_SIZE
  else if !mallocOk then .err LGMP_ERR_NO_MEM
  else
    match pickSessionID prior rands with
    | none => .diverge
    | some sid =>
        .ok { size := size, avail := size - headerSize, nextFree := headerSize,
              started := false, magic := LGMP_PROTOCOL_MAGIC,
              version := LGMP_PROTOCOL_VERSION, caps := 0,
              sessionID := sid, heartbeat := 0, queues := [] }

/-- `lgmpHostAddQueue` (lines 99–140 of host.c).  `msgSize` stands for
`sizeof(struct LGMPHeaderMessage)`; one sentinel slot is added to the
requested capacity; the new queue handle is its index in `queues`. -/
def lgmpHostAddQueue (msgSize now queueID numMessages : Nat) (s : HostState) :
    LGMP_STATUS × HostState :=
  if s.started then (LGMP_ERR_HOST_STARTED, s)
  else if s.queues.length = LGMP_MAX_QUEUES then (LGMP_ERR_NO_QUEUES, s)
  else
    let nm := numMessages + 1
    let needed := msgSize * nm
    if s.avail < needed then (LGMP_ERR_NO_SHARED_MEM, s)
    else
      (LGMP_OK, { s with queues := s.queues ++ [newQueue now nm s.nextFree],
                         avail := s.avail - needed,
                         nextFree := s.nextFree + needed })

/-- The host-local payload handle `struct LGMPMemory` (its `mem` pointer is
`host->mem + offset` and carries no extra information). -/
structure LGMPMemory where
  offset : Nat
  size   : Nat
deriving DecidableEq, Repr, Inhabited

/-- `lgmpHostMemAlloc` (lines 215–237 of host.c): bump-allocate `size`
bytes; `mallocOk` models whether the host-local `malloc` of the handle
succeeds. -/
def lgmpHostMemAlloc (size : Nat) (mallocOk : Bool) (s : HostState) :
    LGMP_STATUS × Option LGMPMemory × HostState :=
  if s.avail < size then (LGMP_ERR_NO_SHARED_MEM, none, s)
  else if !mallocOk then (LGMP_ERR_NO_MEM, none, s)
  else (LGMP_OK, some { offset := s.nextFree, size := size },
        { s with nextFree := s.nextFree + size, avail := s.avail - size })

/-- `lgmpHostProcess` (lines 142–213 of host.c): increment the heartbeat,
run the per-queue maintenance body on every active queue, return
`LGMP_OK`. -/
def lgmpHostProcess (now : Nat) (s : HostState) : LGMP_STATUS × HostState :=
  (LGMP_OK, { s with heartbeat := s.heartbeat + 1,
                     queues := s.queues.map (processQueue now) })

/-- A host-level `lgmpHostPost` to the queue with handle (index) `i`. -/
def hostPost (i now udata payloadOffset payloadSize : Nat) (s : HostState) : HostState :=
  let q := s.queues.getD i default
  { s with queues := s.queues.set i (lgmpHostPost now udata payloadOffset payloadSize q).2 }

/-- The core operations on an initialized host.  `memFree` and `hostFree`
(`lgmpHostMemFree`, lines 239–247, and `lgmpHostFree`, lines 89–97) only
`free` host-local bookkeeping structures and touch neither the shared
region nor the modelled state, so they are identities here. -/
inductive HostOp where
  | addQueue (now queueID numMessages : Nat)
  | memAlloc (size : Nat) (mallocOk : Bool)
  | postMsg (queueIdx now udata payloadOffset payloadSize : Nat)
  | process (now : Nat)
  | memFree
  | hostFree

/-- One core operation applied to the host state. -/
def stepHost (msgSize : Nat) (op : HostOp) (s : HostState) : HostState :=
  match op with
  | .addQueue now qid n => (lgmpHostAddQueue msgSize now qid n s).2
  | .memAlloc sz ok => (lgmpHostMemAlloc sz ok s).2.2
  | .postMsg i now u o sz => hostPost i now u o sz s
  | .process now => (lgmpHostProcess now s).2
  | .memFree => s
  | .hostFree => s

/-- Run a sequence of core operations. -/
def runHost (msgSize : Nat) (ops : List HostOp) (s : HostState) : HostState :=
  ops.foldl (fun st op => stepHost msgSize op st) s

/-! ### Host-level claims (C6, C7, C10) -/

theorem pickSessionID_ne (prior : Nat) :
    ∀ (rands : List Nat) (sid : Nat), pickSessionID prior rands = some sid → sid ≠ prior := by
  intro rands
  induction rands with
  | nil =>
    intro sid h
    exact Option.noConfusion h
  | cons r rs ih =>
    intro sid h
    unfold pickSessionID at h
    split at h
    · exact ih sid h
    · rename_i hne
      rw [Option.some_inj] at h
      rw [← h]
      exact hne

/-- Inversion of a successful `lgmpHostInit`. -/
theorem lgmpHostInit_ok (hs now prior size : Nat) (ok : Bool) (rands : List Nat)
    (h : HostState) (hinit : lgmpHostInit hs now prior size ok rands = InitResult.ok h) :
    h.started = false ∧ h.nextFree = hs ∧ h.avail = size - hs ∧ h.size = size ∧
    hs ≤ size ∧ pickSessionID prior rands = some h.sessionID := by
  unfold lgmpHostInit at hinit
  split at hinit
  · exact InitResult.noConfusion hinit
  split at hinit
  · exact InitResult.noConfusion hinit
  rename_i hclock hsize
  split at hinit
  · exact InitResult.noConfusion hinit
  split at hinit
  · exact InitResult.noConfusion hinit
  rename_i sid hpick
  cases hinit
  exact ⟨rfl, rfl, rfl, rfl, Nat.le_of_not_lt hsize, hpick⟩

/-- C7: every successful initialization writes a `sessionID` different from
the value stored in the region immediately before the call, for every prior
value — including values written by earlier initializations of the same
buffer, since `prior` ranges over all of them. -/
theorem init_fresh_sessionID (hs now prior size : Nat) (ok : Bool) (rands : List Nat)
    (h : HostState) (hinit : lgmpHostInit hs now prior size ok rands = InitResult.ok h) :
    h.sessionID ≠ prior :=
  pickSessionID_ne prior rands h.sessionID
    (lgmpHostInit_ok hs now prior size ok rands h hinit).2.2.2.2.2

/-- The host state produced by `lgmpHostInit 16 7 5 100 true [5, 9]`. -/
def c7host : HostState :=
  { size := 100, avail := 84, nextFree := 16, started := false,
    magic := LGMP_PROTOCOL_MAGIC, version := LGMP_PROTOCOL_VERSION, caps := 0,
    sessionID := 9, heartbeat := 0, queues := [] }

theorem init_fresh_sessionID_witness : c7host.sessionID ≠ 5 :=
  init_fresh_sessionID 16 7 5 100 true [5, 9] c7host rfl

/-- C6: a successful initialization establishes
`nextFree + avail = size`, and every core operation — in particular every
successful or failed `lgmpHostAddQueue` and `lgmpHostMemAlloc` — preserves
the equation, keeps the region size constant, moves `nextFree` only upward
and `avail` only downward, and both by the same (allocated) amount. -/
theorem region_accounting :
    (∀ hs now prior size ok rands (h : HostState),
      lgmpHostInit hs now prior size ok rands = InitResult.ok h →
      h.nextFree + h.avail = h.size) ∧
    (∀ (msgSize : Nat) (op : HostOp) (s : HostState), s.nextFree + s.avail = s.size →
      (stepHost msgSize op s).nextFree + (stepHost msgSize op s).avail
          = (stepHost msgSize op s).size ∧
      (stepHost msgSize op s).size = s.size ∧
      s.nextFree ≤ (stepHost msgSize op s).nextFree ∧
      (stepHost msgSize op s).avail ≤ s.avail ∧
      (stepHost msgSize op s).nextFree - s.nextFree
          = s.avail - (stepHost msgSize op s).avail) := by
  constructor
  · intro hs now prior size ok rands h hinit
    obtain ⟨-, h1, h2, h3, h4, -⟩ := lgmpHostInit_ok hs now prior size ok rands h hinit
    omega
  · intro msgSize op s hinv
    cases op with
    | addQueue now qid n =>
      unfold stepHost lgmpHostAddQueue
      dsimp only
      split
      · dsimp only
        omega
      · split
        · dsimp only
          omega
        · split
          · dsimp only
            omega
          · rename_i hav
            dsimp only
            generalize hk : msgSize * (n + 1) = k at hav ⊢
            omega
    | memAlloc sz ok =>
      unfold stepHost lgmpHostMemAlloc
      dsimp only
      split
      · dsimp only
        omega
      · split
        · dsimp only
          omega
        · dsimp only
          rename_i hav h2
          omega
    | postMsg i now u o sz =>
      unfold stepHost hostPost
      dsimp only
      omega
    | process now =>
      unfold stepHost lgmpHostProcess
      dsimp only
      omega
    | memFree =>
      unfold stepHost
      dsimp only
      omega
    | hostFree =>
      unfold stepHost
      dsimp only
      omega

/-- The host state produced by `lgmpHostInit 16 7 5 100 true [5, 9]`,
used as the accounting witness. -/
def c6host : HostState :=
  { size := 100, avail := 84, nextFree := 16, started := false,
    magic := LGMP_PROTOCOL_MAGIC, version := LGMP_PROTOCOL_VERSION, caps := 0,
    sessionID := 9, heartbeat := 0, queues := [] }

theorem region_accounting_witness :
    c6host.nextFree + c6host.avail = c6host.size ∧
    ((stepHost 4 (HostOp.memAlloc 10 true) c6host).nextFree +
        (stepHost 4 (HostOp.memAlloc 10 true) c6host).avail
      = (stepHost 4 (HostOp.memAlloc 10 true) c6host).size ∧
     (stepHost 4 (HostOp.memAlloc 10 true) c6host).size = c6host.size ∧
     c6host.nextFree ≤ (stepHost 4 (HostOp.memAlloc 10 true) c6host).nextFree ∧
     (stepHost 4 (HostOp.memAlloc 10 true) c6host).avail ≤ c6host.avail ∧
     (stepHost 4 (HostOp.memAlloc 10 true) c6host).nextFree - c6host.nextFree
       = c6host.avail - (stepHost 4 (HostOp.memAlloc 10 true) c6host).avail) :=
  ⟨region_accounting.1 16 7 5 100 true [5, 9] c6host rfl,
   region_accounting.2 4 (HostOp.memAlloc 10 true) c6host (by decide)⟩

theorem stepHost_started (msgSize : Nat) (op : HostOp) (s : HostState) :
    (stepHost msgSize op s).started = s.started := by
  cases op with
  | addQueue now qid n =>
    unfold stepHost lgmpHostAddQueue
    dsimp only
    split
    · rfl
    · split
      · rfl
      · split <;> rfl
  | memAlloc sz ok =>
    unfold stepHost lgmpHostMemAlloc
    dsimp only
    split
    · rfl
    · split <;> rfl
  | postMsg i now u o sz => rfl
  | process now => rfl
  | memFree => rfl
  | hostFree => rfl

theorem runHost_started (msgSize : Nat) (ops : List HostOp) (s : HostState) :
    (runHost msgSize ops s).started = s.started := by
  induction ops generalizing s with
  | nil => rfl
  | cons op rest ih =>
    show (runHost msgSize rest (stepHost msgSize op s)).started = s.started
    rw [ih, stepHost_started]

theorem addQueue_not_started (msgSize now qid n : Nat) (s : HostState)
    (hs : s.started = false) :
    (lgmpHostAddQueue msgSize now qid n s).1 ≠ LGMP_ERR_HOST_STARTED := by
  unfold lgmpHostAddQueue
  dsimp only
  simp only [hs]
  rw [if_neg Bool.false_ne_true]
  split
  · exact fun hcon => LGMP_STATUS.noConfusion hcon
  · split
    · exact fun hcon => LGMP_STATUS.noConfusion hcon
    · exact fun hcon => LGMP_STATUS.noConfusion hcon

/-- C10: after a successful initialization the `started` flag is false, no
core operation (`addQueue`, `memAlloc`, `post`, the maintenance tick, the
frees) ever sets it to true, and therefore the host-already-started branch
of `lgmpHostAddQueue` is unreachable: after any sequence of core
operations, `lgmpHostAddQueue` never returns `LGMP_ERR_HOST_STARTED`. -/
theorem started_flag_never_set (hs now prior size : Nat) (ok : Bool) (rands : List Nat)
    (h : HostState) (hinit : lgmpHostInit hs now prior size ok rands = InitResult.ok h)
    (msgSize : Nat) (ops : List HostOp) :
    (runHost msgSize ops h).started = false ∧
    ∀ now2 qid n,
      (lgmpHostAddQueue msgSize now2 qid n (runHost msgSize ops h)).1
        ≠ LGMP_ERR_HOST_STARTED := by
  have hst : (runHost msgSize ops h).started = false := by
    rw [runHost_started, (lgmpHostInit_ok hs now prior size ok rands h hinit).1]
  exact ⟨hst, fun now2 qid n => addQueue_not_started msgSize now2 qid n _ hst⟩

/-- The host state produced by `lgmpHostInit 16 7 5 100 true [5, 9]`,
used as the started-flag witness. -/
def c10host : HostState :=
  { size := 100, avail := 84, nextFree := 16, started := false,
    magic := LGMP_PROTOCOL_MAGIC, version := LGMP_PROTOCOL_VERSION, caps := 0,
    sessionID := 9, heartbeat := 0, queues := [] }

/-- A concrete operation sequence for the C10 witness. -/
def c10ops : List HostOp :=
  [HostOp.addQueue 7 1 2, HostOp.memAlloc 10 true, HostOp.process 8]

theorem started_flag_never_set_witness :
    (runHost 4 c10ops c10host).started = false ∧
    (lgmpHostAddQueue 4 9 1 2 (runHost 4 c10ops c10host)).1 ≠ LGMP_ERR_HOST_STARTED :=
  ⟨(started_flag_never_set 16 7 5 100 true [5, 9] c10host rfl 4 c10ops).1,
   (started_flag_never_set 16 7 5 100 true [5, 9] c10host rfl 4 c10ops).2 9 1 2⟩
